import Mathlib

/-!
# MahiroAdapter — shallow embedding and verification

This file embeds the behavior of `src/MahiroAdapter/plugin.py` (a chat-bot
host plugin that fetches per-user "affinity" profiles, caches them with a
600-second TTL, and splices an affinity description block into the host's
prompt-building calls) and proves the specification claims about it.

Modelling conventions:
* Wall-clock timestamps (`time.time()`, Python floats) are modelled as
  rationals (`ℚ`).
* Python dicts are modelled as association lists in insertion order
  (`List (String × _)`); Python dict key uniqueness is carried as a
  `Nodup` hypothesis where a proof needs it.
* JSON values (the untyped API payload) are modelled by the inductive
  `JsonValue`; JSON numbers are modelled as integers (the only numeric
  field the code reads, `data.impression`, is an integer score).
* Python exceptions inside a `try` block are modelled with `Except Unit`
  (`.error ()` = an exception was raised and will be swallowed by the
  enclosing handler).
* Async/await and the aiohttp transport are externalized: the outcome of
  the single HTTP request made by `fetch_user_info` is an explicit
  `HttpOutcome` argument.
-/

/-- JSON-like Python value (the untyped payload of the external API). -/
inductive JsonValue : Type where
  | null : JsonValue
  | boolVal : Bool → JsonValue
  | intVal : Int → JsonValue
  | strVal : String → JsonValue
  | arrVal : List JsonValue → JsonValue
  | objVal : List (String × JsonValue) → JsonValue

mutual

/-- Python `repr` of a JSON-like value (used by `str` on containers). -/
def pyRepr : JsonValue → String
  | .null => "None"
  | .boolVal true => "True"
  | .boolVal false => "False"
  | .intVal n => toString n
  | .strVal s => "\x27" ++ s ++ "\x27"
  | .arrVal xs => "[" ++ String.intercalate ", " (pyReprList xs) ++ "]"
  | .objVal fs => "\x7b" ++ String.intercalate ", " (pyReprFields fs) ++ "\x7d"

/-- `repr` of each element of a Python list. -/
def pyReprList : List JsonValue → List String
  | [] => []
  | v :: vs => pyRepr v :: pyReprList vs

/-- `'key': repr(value)` rendering of each entry of a Python dict. -/
def pyReprFields : List (String × JsonValue) → List String
  | [] => []
  | (k, v) :: fs => ("\x27" ++ k ++ "\x27: " ++ pyRepr v) :: pyReprFields fs

end

/-- Python `str()` of a JSON-like value, as used by f-string interpolation. -/
def pyStr : JsonValue → String
  | .strVal s => s
  | v => pyRepr v

/-- Python truthiness of a JSON-like value (`if x:`). -/
def pyTruthy : JsonValue → Bool
  | .null => false
  | .boolVal b => b
  | .intVal n => n != 0
  | .strVal s => s != ""
  | .arrVal xs => !xs.isEmpty
  | .objVal fs => !fs.isEmpty

/-- First-match lookup in an association list: Python `d[k]` / `d.get(k)`
(Python dict keys are unique, so first match is the match). -/
def dictGet? {β : Type} (l : List (String × β)) (k : String) : Option β :=
  (l.find? (fun p => p.1 == k)).map (fun p => p.2)

/-- Python `d.get(k, default)`. -/
def dictGetD {β : Type} (l : List (String × β)) (k : String) (d : β) : β :=
  (dictGet? l k).getD d

/-- Python `.get` is only available on dicts: reading a key off a non-dict
JSON value raises `AttributeError` (here: `none`). -/
def jsonAsDict : JsonValue → Option (List (String × JsonValue))
  | .objVal fs => some fs
  | _ => none

/-- Python `c in s` (single-character membership test on a string). -/
def pyContains (c : Char) (s : String) : Bool :=
  s.toList.contains c

/-- Python `s.split(sep)` for a single-character separator: split on every
occurrence, keeping empty pieces (`"a((b".split("(") == ["a", "", "b"]`). -/
def pySplit1 (c : Char) (s : String) : List String :=
  (s.toList.splitOn c).map (fun l => String.mk l)

/-- Python `s.strip()`: drop whitespace from both ends. -/
def pyStrip (s : String) : String :=
  String.mk (((s.toList.dropWhile Char.isWhitespace).reverse.dropWhile
    Char.isWhitespace).reverse)

/-- `UserInfoData` — the per-user profile record built by the message
handler (dataclass in the source; `api_data` is the raw response dict). -/
structure UserInfoData : Type where
  user_id : String
  display_name : String
  api_data : List (String × JsonValue)
  timestamp : ℚ
  success : Bool

/-- `UserInfoCache` — one entry of the global cache: the record plus the
wall-clock time at which it was stored. -/
structure UserInfoCache : Type where
  user_data : UserInfoData
  timestamp : ℚ

/-- The global cache `_global_user_cache : dict[str, UserInfoCache]`,
modelled as an association list in dict insertion order. -/
abbrev Cache : Type := List (String × UserInfoCache)

/-- `store_user_info`: insert/overwrite the entry for `user_id` (Python dict
assignment keeps the position of an existing key, appends a new one), then
sweep the whole cache, deleting entries whose age exceeds 600 s.
`tPut` and `tSweep` are the two separate `time.time()` calls the function
makes (insertion timestamp and sweep reference time). -/
def store_user_info (user_id : String) (user_data : UserInfoData)
    (tPut tSweep : ℚ) (cache : Cache) : Cache :=
  let entry : UserInfoCache := ⟨user_data, tPut⟩
  let inserted : Cache :=
    if cache.any (fun p => p.1 == user_id) then
      cache.map (fun p => if p.1 == user_id then (user_id, entry) else p)
    else
      cache ++ [(user_id, entry)]
  inserted.filter (fun p => decide (tSweep - p.2.timestamp ≤ 600))

/-- `get_user_info`: return the cached record if present and at most 600 s
old; delete the entry and return `none` if it is older. Returns the value
together with the updated global cache. -/
def get_user_info (user_id : String) (now : ℚ) (cache : Cache) :
    Option UserInfoData × Cache :=
  match dictGet? cache user_id with
  | none => (none, cache)
  | some entry =>
    if now - entry.timestamp ≤ 600 then (some entry.user_data, cache)
    else (none, cache.filter (fun p => !(p.1 == user_id)))

/-- `get_all_user_info`: return every record at most 600 s old (in cache
iteration order), deleting the expired ones as a side effect. -/
def get_all_user_info (now : ℚ) (cache : Cache) :
    List (String × UserInfoData) × Cache :=
  let keep := cache.filter (fun p => decide (now - p.2.timestamp ≤ 600))
  (keep.map (fun p => (p.1, p.2.user_data)), keep)

/-- `clear_expired_cache`: delete all entries older than 600 s and return
how many were removed. -/
def clear_expired_cache (now : ℚ) (cache : Cache) : Nat × Cache :=
  let expired := cache.filter (fun p => decide (now - p.2.timestamp > 600))
  (expired.length, cache.filter (fun p => decide (¬ now - p.2.timestamp > 600)))

/-- Outcome of the single HTTP POST issued by `ApiService.fetch_user_info`
(externalized: the transport is outside the embedded code). A `response`
carries the HTTP status and the result of `response.json()` — which itself
can raise (`.error`) on a malformed body. -/
inductive HttpOutcome : Type where
  | response : Int → Except String JsonValue → HttpOutcome
  | timeoutErr : HttpOutcome
  | otherExc : String → HttpOutcome

/-- `ApiService._create_success_response`. -/
def create_success_response (data : JsonValue) (status_code : Int) :
    List (String × JsonValue) :=
  [("success", .boolVal true), ("data", data),
   ("status_code", .intVal status_code), ("error", .null)]

/-- `ApiService._create_error_response` (`status_code` defaults to 0 at the
call sites that omit it). -/
def create_error_response (error : String) (status_code : Int) :
    List (String × JsonValue) :=
  [("success", .boolVal false), ("data", .null),
   ("status_code", .intVal status_code), ("error", .strVal error)]

/-- Python `str.rstrip('/')`. -/
def pyRstripSlash (s : String) : String :=
  String.mk ((s.toList.reverse.dropWhile (fun c => c == '/')).reverse)

/-- `ApiService.fetch_user_info`. Besides the response dict it returns the
session state after the call (`get_session` lazily creates the session) and
the list of URLs actually POSTed, so that "no network call is issued" is a
statement about the function. When the API is disabled by configuration the
error response is returned before any session or request is made. -/
def fetch_user_info (enable_api : Bool) (base_url : String) (user_id : String)
    (sessionExists : Bool) (outcome : HttpOutcome) :
    List (String × JsonValue) × Bool × List String :=
  if !enable_api then
    (create_error_response "API服务已禁用" 0, sessionExists, [])
  else
    let url := pyRstripSlash base_url ++ "/get_info/" ++ user_id
    let resp :=
      match outcome with
      | .response status body =>
        if status == 200 then
          match body with
          | .ok data => create_success_response data status
          | .error m => create_error_response ("请求错误: " ++ m) 0
        else
          create_error_response ("API返回状态码: " ++ toString status) status
      | .timeoutErr => create_error_response "API请求超时" 0
      | .otherExc m => create_error_response ("请求错误: " ++ m) 0
    (resp, true, [url])

/-- Affinity tier line for the [0,10) impression range. -/
def tier_0_10 : String :=
  "好感度[0-10]：路人 (态度：普通) 你与用户关系是路人，对用户态度普通。不会主动接近用户，但也不会排斥用户，保持基本礼貌和活泼。"

/-- Affinity tier line for the [10,25) impression range. -/
def tier_10_25 : String :=
  "好感度[10-25]：陌生 (态度：普通，警惕) 你与用户关系是陌生，对用户态度普通。对用户保持基本礼貌和活泼，不会对用户说关于你隐私的事情。可接受一点点肢体接触 (比如：摸摸头，摸摸脸)，亲密接触除外。"

/-- Affinity tier line for the [25,50) impression range. -/
def tier_25_50 : String :=
  "好感度[25-50]：朋友 (态度：友好) 你与用户关系是朋友，对用户态度友好。可接受一些肢体接触 (比如：牵手)，亲密接触除外。"

/-- Affinity tier line for the [50,90) impression range. -/
def tier_50_90 : String :=
  "好感度[50-90]：熟悉 (态度：朋友，亲近) 你与用户态度是熟悉，对用户态度是朋友。可接受更多肢体接触 (比如：拥抱)，亲密接触除外。"

/-- Affinity tier line for the [90,140) impression range. -/
def tier_90_140 : String :=
  "好感度[90-140]：更加熟悉 (态度：非常要好的朋友，依赖) 你与用户态度是更加熟悉，对用户态度是非常要好的朋友，开始依赖对方。可接受更多肢体接触，可接受一点点亲密接触。"

/-- Affinity tier line for the [140,200) impression range. -/
def tier_140_200 : String :=
  "好感度[140-200]：信赖 (态度：依赖，信任) 你与用户态度是信赖，对用户态度是比较依赖对方，非常信任。可接受更多肢体接触，可接受更多亲密接触。"

/-- Affinity tier line for the [200,270) impression range. -/
def tier_200_270 : String :=
  "好感度[200-270]：相知 (态度：可以分享秘密的朋友) 你与用户态度是相知，对用户态度已达到可分享小秘密的地步。可接受更多肢体接触，可接受大部分亲密接触。"

/-- Affinity tier line for the [270,400) impression range (the source line
ends with a stray trailing space, reproduced here). -/
def tier_270_400 : String :=
  "好感度[270-400]：厚谊 (态度：深厚友谊，重要的人) 你与用户态度是厚谊，对用户态度是建立了深厚友谊，用户是非常重要的人。可接受大部分亲密接触，会接受用户部分要求。 "

/-- Affinity tier line for the [400,∞) impression range. -/
def tier_over_400 : String :=
  "好感度[>400]：恋人 (态度：亲密，爱恋) 你与用户态度是恋人，对用户态度是亲密爱恋。可接受恋人间的亲密接触，尽可能地接受用户任何要求。"

/-- The fixed nine-tier affinity description block (`impression_prompt` in
the source; identical in the group and private variants). -/
def impression_prompt : String :=
  "\n好感度等级描述:\n" ++ tier_0_10 ++ "\n" ++ tier_10_25 ++ "\n" ++
  tier_25_50 ++ "\n" ++ tier_50_90 ++ "\n" ++ tier_90_140 ++ "\n" ++
  tier_140_200 ++ "\n" ++ tier_200_270 ++ "\n" ++ tier_270_400 ++ "\n" ++
  tier_over_400

/-- Group-variant success header (`user_prompt` f-string, success branch). -/
def group_user_prompt (name uid impr att : String) : String :=
  "\n\n        【用户背景信息】：当前用户 " ++ name ++ "(QQ:" ++ uid ++
  ") 的好感度为：" ++ impr ++ "\n        你对用户的态度是：" ++ att ++
  "\n        请参考以上用户信息来更好地理解和回应用户的需求。\n\n        "

/-- Group-variant reduced header (`user_prompt` f-string, failed-fetch
branch: fixed impression 10 and attitude 一般, no tier block). -/
def group_fail_prompt (name uid : String) : String :=
  "\n【用户信息提示】：当前用户 " ++ name ++ "(QQ:" ++ uid ++
  ") 的好感度为：10\n你对用户的态度是：一般\n"

/-- Private-variant success header. -/
def pri_user_prompt (name uid impr att : String) : String :=
  "\n【用户背景信息】：当前用户 " ++ name ++ "(QQ:" ++ uid ++
  ") 的好感度为：" ++ impr ++ "\n你对用户的态度是：" ++ att ++
  "\n请参考以上用户信息来更好地理解和回应用户的需求。\n\n"

/-- Private-variant reduced header (failed-fetch branch). -/
def pri_fail_prompt (name uid : String) : String :=
  "\n\n【用户信息提示】：当前用户 " ++ name ++ "(QQ:" ++ uid ++
  ") 的好感度为：10\n你对用户的态度是：一般\n\n"

/-- The name-extraction heuristic
`reply_reason.split("(")[1].strip().split(")")[0]`: `none` is the Python
`IndexError` raised when `reply_reason` contains no `(` (a one-element
split indexed at 1); both enclosing wrappers swallow it. The second indexing
(`[0]`) cannot fail since `split` always returns a non-empty list. -/
def extract_sender_name (reply_reason : String) : Option String :=
  match (pySplit1 '(' reply_reason)[1]? with
  | none => none
  | some seg => some ((pySplit1 ')' (pyStrip seg)).headD "")

/-- The linear scan over the cached records: id of the first record whose
`display_name` equals the candidate name (for-loop with `break`). -/
def find_sender (user_cache : List (String × UserInfoData))
    (sender_name : String) : Option String :=
  (user_cache.find? (fun p => p.2.display_name == sender_name)).map
    (fun p => p.1)

/-- The `try` block shared by both patched prompt builders, parametrized by
the two header templates (the only difference between the group and private
variants). Result: `.error ()` — an exception was raised inside the block
(swallowed by the caller); `.ok none` — no usable match, no enhancement;
`.ok (some p)` — the enhanced prompt `p`.

The two exception sites of the block are the `IndexError` of the extraction
heuristic and the `AttributeError` of calling `.get` on a non-dict
`api_data["data"]` value. -/
def build_enhanced (mkSuccess : String → String → String → String → String)
    (mkFail : String → String → String)
    (reply_reason base_prompt : String)
    (user_cache : List (String × UserInfoData)) (now : ℚ) :
    Except Unit (Option String) :=
  let senderStep : Except Unit (Option String) :=
    if pyContains '"' reply_reason || pyContains '(' reply_reason then
      match extract_sender_name reply_reason with
      | none => .error ()
      | some sender_name => .ok (find_sender user_cache sender_name)
    else .ok none
  match senderStep with
  | .error e => .error e
  | .ok none => .ok none
  | .ok (some uid) =>
    -- `if sender_user_id and sender_user_id in _user_cache:` — Python
    -- truthiness (an empty-string id is falsy) plus key membership.
    if uid == "" then .ok none
    else
      match dictGet? user_cache uid with
      | none => .ok none
      | some user_data =>
        if now - user_data.timestamp < 600 then
          if user_data.success then
            match jsonAsDict (dictGetD user_data.api_data "data" (.objVal [])) with
            | none => .error ()
            | some api_fields =>
              let impression := dictGetD api_fields "impression" (.strVal "未知")
              let attitude := dictGetD api_fields "attitude" (.strVal "未知")
              .ok (some (mkSuccess user_data.display_name user_data.user_id
                (pyStr impression) (pyStr attitude) ++ base_prompt))
          else
            .ok (some (mkFail user_data.display_name user_data.user_id ++
              base_prompt))
        else .ok none

/-- Common shape of both patched prompt builders. The saved original method
reference (a module global in the source) is `origSaved`; the arguments it
is forwarded verbatim are abstracted as `arg` (their values never influence
the wrapper's own logic, which reads only `reply_reason`). If the original
reference was never captured, the wrapper returns an empty prompt and empty
token list. Otherwise it delegates, returns an empty base prompt unchanged,
and then runs the enhancement `try` block; any exception or absent match
falls back to the unmodified base prompt. Also returns the global cache
after the `get_all_user_info` side effect. -/
def wrapper_core {α : Type} (origSaved : Option (α → String × List Int))
    (mkSuccess : String → String → String → String → String)
    (mkFail : String → String → String)
    (arg : α) (reply_reason : String) (now : ℚ) (cache : Cache) :
    (String × List Int) × Cache :=
  match origSaved with
  | none => (("", []), cache)
  | some orig =>
    let base := orig arg
    if base.1 == "" then (base, cache)
    else
      let ga := get_all_user_info now cache
      match build_enhanced mkSuccess mkFail reply_reason base.1 ga.1 now with
      | .ok (some enhanced) => ((enhanced, base.2), ga.2)
      | _ => ((base.1, base.2), ga.2)

/-- `patched_method` — the group-context wrapper installed over
`DefaultReplyer.build_prompt_reply_context`. On a successful fresh cache
match the enhanced prompt is header + tier block + base prompt. -/
def patched_method {α : Type} (origSaved : Option (α → String × List Int))
    (arg : α) (reply_reason : String) (now : ℚ) (cache : Cache) :
    (String × List Int) × Cache :=
  wrapper_core origSaved
    (fun name uid impr att =>
      group_user_prompt name uid impr att ++ impression_prompt)
    group_fail_prompt arg reply_reason now cache

/-- `patched_method_pri` — the private-context wrapper installed over
`PrivateReplyer.build_prompt_reply_context`; identical to the group variant
except for the header templates. -/
def patched_method_pri {α : Type} (origSaved : Option (α → String × List Int))
    (arg : α) (reply_reason : String) (now : ℚ) (cache : Cache) :
    (String × List Int) × Cache :=
  wrapper_core origSaved
    (fun name uid impr att =>
      pri_user_prompt name uid impr att ++ impression_prompt)
    pri_fail_prompt arg reply_reason now cache

/-- Inputs of one `UserInfoHandler.execute` invocation that live outside the
embedded code: the relevant configuration values, the fields read off the
incoming message, the externalized HTTP outcome, and the wall-clock time.
`exception` models an exception raised anywhere inside the handler's `try`
body by the host machinery (configuration access, message attributes, …):
the outer handler catches it and reports it in the status string. Message
ids are modelled as the strings they are converted to (`str(user_id)`);
Python falsiness of a missing/empty id is `none` or `""`. The writes to
`message.additional_data` are a side effect no claim mentions and are not
modelled. -/
structure ExecEnv : Type where
  exception : Option String
  enable_info : Bool
  user_id : Option String
  user_nickname : Option String
  user_cardname : Option String
  base_url : String
  sessionExists : Bool
  outcome : HttpOutcome
  now : ℚ

/-- `UserInfoHandler.execute` — the per-message collector hook. Returns the
host 5-tuple `(success, need_continue, result_msg, extra, extra)` plus the
updated global cache. The handler's `ApiService` is constructed with
`enable_api = get_config("user_info.enable_info", True)`, the same flag as
the handler's own early-exit check. -/
def UserInfoHandler.execute (env : ExecEnv) (cache : Cache) :
    (Bool × Bool × String × Option String × Option String) × Cache :=
  match env.exception with
  | some e =>
    ((true, true, "用户信息获取过程中发生错误: " ++ e, none, none), cache)
  | none =>
    if !env.enable_info then
      ((true, true, "用户信息获取已禁用", none, none), cache)
    else
      match env.user_id with
      | none => ((true, true, "无法获取发言者QQ号，跳过信息获取", none, none), cache)
      | some uid =>
        if uid == "" then
          ((true, true, "无法获取发言者QQ号，跳过信息获取", none, none), cache)
        else
          let user_nickname := env.user_nickname.getD "未知用户"
          let user_cardname := env.user_cardname.getD ""
          let display_name :=
            if user_cardname != "" then user_cardname else user_nickname
          let g := get_user_info uid env.now cache
          match g.1 with
          | some _ => ((true, true, "用户信息获取完成（缓存）", none, none), g.2)
          | none =>
            let f := fetch_user_info env.enable_info env.base_url uid
              env.sessionExists env.outcome
            let api_data := f.1
            let success := pyTruthy (dictGetD api_data "success" (.boolVal false))
            let user_data : UserInfoData :=
              ⟨uid, display_name, api_data, env.now, success⟩
            let cache2 := store_user_info uid user_data env.now env.now g.2
            ((true, true,
              "用户信息获取完成: " ++ (if success then "成功" else "失败"),
              none, none), cache2)

/-- The two host attributes the plugin intercepts
(`DefaultReplyer.build_prompt_reply_context` and
`PrivateReplyer.build_prompt_reply_context`), with abstract method types.
`setattr` can store `None`, hence the `Option`. -/
structure HostMethods (G P : Type) : Type where
  groupMethod : Option G
  priMethod : Option P

/-- The module globals of the patch machinery:
`_original_build_prompt_reply_context_group`,
`_original_build_prompt_reply_context_pri`, `_patch_applied`. -/
structure PatchGlobals (G P : Type) : Type where
  origGroup : Option G
  origPri : Option P
  patchApplied : Bool

/-- `remove_user_info_patch`: if the patch was applied and the group
original was saved, re-import the host classes (`importOk` is whether those
imports succeed; an exception is caught and reported as `false`), restore
both attributes to the saved originals (the private original is restored
without a `None` check), clear the applied flag, and report `true`.
The saved original references themselves are not cleared. -/
def remove_user_info_patch {G P : Type} (importOk : Bool)
    (host : HostMethods G P) (g : PatchGlobals G P) :
    Bool × HostMethods G P × PatchGlobals G P :=
  match g.patchApplied, g.origGroup with
  | true, some _ =>
    if importOk then
      (true, ⟨g.origGroup, g.origPri⟩, ⟨g.origGroup, g.origPri, false⟩)
    else (false, host, g)
  | _, _ => (false, host, g)

/-- `UserInfoPlugin.on_plugin_unload`: run `remove_user_info_patch` (its
result only determines which message is logged), then unconditionally clear
the global user cache. -/
def UserInfoPlugin.on_plugin_unload {G P : Type} (importOk : Bool)
    (host : HostMethods G P) (g : PatchGlobals G P) (cache : Cache) :
    HostMethods G P × PatchGlobals G P × Cache :=
  let r := remove_user_info_patch importOk host g
  (r.2.1, r.2.2, [])

/-! ## Helper lemmas about association-list lookup -/

theorem dictGet?_eq_none_iff {β : Type} (l : List (String × β)) (k : String) :
    dictGet? l k = none ↔ ∀ x ∈ l, x.1 ≠ k := by
  simp [dictGet?, List.find?_eq_none]

theorem dictGet?_eq_some_elim {β : Type} {l : List (String × β)} {k : String}
    {v : β} (h : dictGet? l k = some v) : ∃ q ∈ l, q.1 = k ∧ q.2 = v := by
  unfold dictGet? at h
  cases hf : l.find? (fun p => p.1 == k) with
  | none => rw [hf] at h; simp at h
  | some q =>
    rw [hf] at h
    refine ⟨q, List.mem_of_find?_eq_some hf, ?_, ?_⟩
    · have := List.find?_some hf
      simpa using this
    · simpa using h

theorem dictGet?_of_unique {β : Type} {l : List (String × β)} {k : String}
    {v : β} (hmem : (k, v) ∈ l)
    (huniq : ∀ x ∈ l, x.1 = k → x = (k, v)) :
    dictGet? l k = some v := by
  unfold dictGet?
  have hs : (l.find? (fun p => p.1 == k)).isSome := by
    rw [List.find?_isSome]
    exact ⟨(k, v), hmem, by simp⟩
  obtain ⟨q, hq⟩ := Option.isSome_iff_exists.mp hs
  have hqm := List.mem_of_find?_eq_some hq
  have hqp := List.find?_some hq
  have hqe : q = (k, v) := huniq q hqm (by simpa using hqp)
  rw [hq, hqe]
  rfl

/-- A string not containing `c` splits on `c` into a single piece
(hence Python indexing `[1]` into that split raises `IndexError`). -/
theorem pySplit1_of_not_contains {c : Char} {s : String}
    (h : pyContains c s = false) : pySplit1 c s = [s] := by
  unfold pyContains at h
  unfold pySplit1
  have hmem : c ∉ s.toList := by
    intro hc
    simp at h
    exact h hc
  have : s.toList.splitOn c = [s.toList] := by
    unfold List.splitOn
    apply List.splitOnP_eq_single
    intro x hx
    simp only [beq_iff_eq]
    rintro rfl
    exact hmem hx
  rw [this]
  simp

/-! ## C4 and C5 — the fetch client -/

/-- C4: fetching with `enable_api = false` returns the fixed disabled-API
error response — `success = False`, `status_code = 0`, `data = None`, a
non-empty error string — leaves the session untouched (none is created) and
sends no request. -/
theorem fetch_disabled_no_network (base_url user_id : String)
    (sessionExists : Bool) (outcome : HttpOutcome) :
    fetch_user_info false base_url user_id sessionExists outcome =
      (create_error_response "API服务已禁用" 0, sessionExists, []) ∧
    dictGet? (fetch_user_info false base_url user_id sessionExists outcome).1
      "success" = some (.boolVal false) ∧
    dictGet? (fetch_user_info false base_url user_id sessionExists outcome).1
      "status_code" = some (.intVal 0) ∧
    dictGet? (fetch_user_info false base_url user_id sessionExists outcome).1
      "data" = some .null ∧
    ∃ e, dictGet? (fetch_user_info false base_url user_id sessionExists
      outcome).1 "error" = some (.strVal e) ∧ e ≠ "" := by
  refine ⟨rfl, rfl, rfl, rfl, "API服务已禁用", rfl, by decide⟩

/-- Did the externalized HTTP exchange succeed (status 200 and a body that
parses as JSON)? The only outcome `fetch_user_info` converts into a success
response. -/
def http_ok : HttpOutcome → Bool
  | .response status (.ok _) => status == 200
  | _ => false

/-- C5: `fetch_user_info` is total over every outcome of the HTTP request
(it is a plain function of the outcome — no exception escapes it), its
result always carries all four fields `success`, `data`, `status_code`,
`error`, the `success` field is always a boolean, and it is `True` exactly
when the API is enabled and the exchange succeeded — every failure is
converted into a `success = False` response. -/
theorem fetch_never_raises (enable_api : Bool) (base_url user_id : String)
    (sessionExists : Bool) (outcome : HttpOutcome) :
    (dictGet? (fetch_user_info enable_api base_url user_id sessionExists
      outcome).1 "success").isSome = true ∧
    (dictGet? (fetch_user_info enable_api base_url user_id sessionExists
      outcome).1 "data").isSome = true ∧
    (dictGet? (fetch_user_info enable_api base_url user_id sessionExists
      outcome).1 "status_code").isSome = true ∧
    (dictGet? (fetch_user_info enable_api base_url user_id sessionExists
      outcome).1 "error").isSome = true ∧
    (dictGet? (fetch_user_info enable_api base_url user_id sessionExists
        outcome).1 "success" =
      some (.boolVal (enable_api && http_ok outcome))) := by
  cases enable_api with
  | false => exact ⟨rfl, rfl, rfl, rfl, rfl⟩
  | true =>
    cases outcome with
    | response status body =>
      cases body with
      | ok d =>
        cases hb : (status == 200) with
        | true =>
          have h200 : status = 200 := by simpa using hb
          subst h200
          exact ⟨rfl, rfl, rfl, rfl, rfl⟩
        | false =>
          have hfetch : fetch_user_info true base_url user_id sessionExists
              (HttpOutcome.response status (Except.ok d)) =
              (create_error_response ("API返回状态码: " ++ toString status)
                status, true,
               [pyRstripSlash base_url ++ "/get_info/" ++ user_id]) := by
            simp [fetch_user_info, hb]
          have hok : http_ok (HttpOutcome.response status (Except.ok d)) =
              false := by simp [http_ok, hb]
          rw [hfetch, hok]
          exact ⟨rfl, rfl, rfl, rfl, rfl⟩
      | error m =>
        cases hb : (status == 200) with
        | true =>
          have h200 : status = 200 := by simpa using hb
          subst h200
          exact ⟨rfl, rfl, rfl, rfl, rfl⟩
        | false =>
          have hfetch : fetch_user_info true base_url user_id sessionExists
              (HttpOutcome.response status (Except.error m)) =
              (create_error_response ("API返回状态码: " ++ toString status)
                status, true,
               [pyRstripSlash base_url ++ "/get_info/" ++ user_id]) := by
            simp [fetch_user_info, hb]
          have hok : http_ok (HttpOutcome.response status (Except.error m)) =
              false := by simp [http_ok]
          rw [hfetch, hok]
          exact ⟨rfl, rfl, rfl, rfl, rfl⟩
    | timeoutErr => exact ⟨rfl, rfl, rfl, rfl, rfl⟩
    | otherExc m => exact ⟨rfl, rfl, rfl, rfl, rfl⟩

/-! ## C3 — the collector handler -/

/-- C3: on every path — disabled, missing sender id, cache hit, cache miss
with any fetch outcome (success or failure), and any internally raised
exception — `UserInfoHandler.execute` returns a 5-tuple whose first and
second components are `True`; it never blocks the host pipeline (and, being
a total function of its environment, never raises). -/
theorem execute_always_continues (env : ExecEnv) (cache : Cache) :
    (UserInfoHandler.execute env cache).1.1 = true ∧
    (UserInfoHandler.execute env cache).1.2.1 = true := by
  unfold UserInfoHandler.execute
  dsimp only
  repeat' split
  all_goals exact ⟨rfl, rfl⟩

/-! ## C2 and C9 — cache invariants -/

/-- C2: an entry whose wall-clock age exceeds 600 s is never returned to a
caller: `get_user_info` returns `none` for it and deletes it, and
`get_all_user_info` omits it from its result and deletes it. The `Nodup`
hypothesis is the key-uniqueness invariant of the Python dict the
association list models. -/
theorem expired_never_returned (now : ℚ) (cache : Cache) (uid : String)
    (e : UserInfoCache) (hnodup : (cache.map Prod.fst).Nodup)
    (hfind : dictGet? cache uid = some e) (hexp : now - e.timestamp > 600) :
    (get_user_info uid now cache).1 = none ∧
    dictGet? (get_user_info uid now cache).2 uid = none ∧
    dictGet? (get_all_user_info now cache).1 uid = none ∧
    dictGet? (get_all_user_info now cache).2 uid = none := by
  have hnle : ¬ (now - e.timestamp ≤ 600) := not_le.mpr hexp
  have huniq : ∀ x ∈ cache, x.1 = uid → x.2 = e := by
    obtain ⟨q, hqmem, hqk, hqv⟩ := dictGet?_eq_some_elim hfind
    intro x hx hxk
    have hxq : x = q :=
      List.inj_on_of_nodup_map hnodup hx hqmem (by rw [hxk, hqk])
    rw [hxq, hqv]
  have hget : get_user_info uid now cache =
      (none, cache.filter (fun p => !(p.1 == uid))) := by
    unfold get_user_info
    rw [hfind]
    simp [hnle]
  refine ⟨by rw [hget], ?_, ?_, ?_⟩
  · rw [hget]
    rw [dictGet?_eq_none_iff]
    intro x hx
    have := (List.mem_filter.mp hx).2
    simpa using this
  · rw [dictGet?_eq_none_iff]
    intro x hx
    unfold get_all_user_info at hx
    simp only [List.mem_map, List.mem_filter] at hx
    obtain ⟨q, ⟨hqc, hqle⟩, rfl⟩ := hx
    intro hk
    have hq2 : q.2 = e := huniq q hqc hk
    rw [hq2] at hqle
    simp [hnle] at hqle
  · rw [dictGet?_eq_none_iff]
    intro x hx
    unfold get_all_user_info at hx
    simp only [List.mem_filter] at hx
    obtain ⟨hxc, hxle⟩ := hx
    intro hk
    have hx2 : x.2 = e := huniq x hxc hk
    rw [hx2] at hxle
    simp [hnle] at hxle

/-- Concrete 1-entry cache holding a record stored at time 0. -/
def sampleExpiredCache : Cache := [("7", ⟨⟨"7", "A", [], 0, false⟩, 0⟩)]

theorem expired_never_returned_witness :
    ((1000 : ℚ) - (0 : ℚ) > 600) ∧
    ((get_user_info "7" 1000 sampleExpiredCache).1 = none ∧
     dictGet? (get_user_info "7" 1000 sampleExpiredCache).2 "7" = none ∧
     dictGet? (get_all_user_info 1000 sampleExpiredCache).1 "7" = none ∧
     dictGet? (get_all_user_info 1000 sampleExpiredCache).2 "7" = none) :=
  ⟨by norm_num,
   expired_never_returned 1000 sampleExpiredCache "7"
     ⟨⟨"7", "A", [], 0, false⟩, 0⟩ (by decide) rfl (by norm_num)⟩

/-- After `store_user_info uid d t1 t2`, the entry looked up at `uid` is
exactly the freshly written one, provided the sweep (at `t2`) does not see
it as expired. -/
theorem store_user_info_lookup (uid : String) (d : UserInfoData)
    (t1 t2 : ℚ) (cache : Cache) (hkeep : t2 - t1 ≤ 600) :
    dictGet? (store_user_info uid d t1 t2 cache) uid =
      some ⟨d, t1⟩ := by
  unfold store_user_info
  dsimp only
  by_cases hany : cache.any (fun p => p.1 == uid) = true
  · simp only [hany, if_true]
    apply dictGet?_of_unique
    · rw [List.mem_filter]
      refine ⟨?_, by simpa using hkeep⟩
      rw [List.mem_map]
      obtain ⟨p, hp, hpk⟩ := List.any_eq_true.mp hany
      exact ⟨p, hp, by simp [hpk]⟩
    · intro x hx hxk
      have hx1 := (List.mem_filter.mp hx).1
      rw [List.mem_map] at hx1
      obtain ⟨p, _, rfl⟩ := hx1
      by_cases hpk : (p.1 == uid) = true
      · simp [hpk]
      · simp only [hpk] at hxk
        simp only [if_neg (by simp [hpk] : ¬ ((p.1 == uid) = true))] at hxk ⊢
        exact absurd hxk (by simpa using hpk)
  · rw [if_neg hany]
    have hnone : ∀ p ∈ cache, ¬ (p.1 == uid) = true := by
      intro p hp
      intro hpk
      exact hany (List.any_eq_true.mpr ⟨p, hp, hpk⟩)
    apply dictGet?_of_unique
    · rw [List.mem_filter]
      refine ⟨?_, by simpa using hkeep⟩
      exact List.mem_append_right _ (by simp)
    · intro x hx hxk
      have hx1 := (List.mem_filter.mp hx).1
      rw [List.mem_append] at hx1
      cases hx1 with
      | inl hc => exact absurd (by simp [hxk]) (hnone x hc)
      | inr hs => simpa using hs

/-- C9: `put` (whose side-effect sweep runs at `t2 ≥ t1` and never removes
the entry just written) followed immediately by `get` within the 600 s
window returns exactly the record that was put. -/
theorem put_then_get (uid : String) (d : UserInfoData) (t1 t2 t3 : ℚ)
    (cache : Cache) (h12 : t1 ≤ t2) (h23 : t2 ≤ t3) (hage : t3 - t1 < 600) :
    (get_user_info uid t3 (store_user_info uid d t1 t2 cache)).1 =
      some d := by
  have hkeep : t2 - t1 ≤ 600 := by linarith
  have hl := store_user_info_lookup uid d t1 t2 cache hkeep
  unfold get_user_info
  rw [hl]
  have hle : t3 - (⟨d, t1⟩ : UserInfoCache).timestamp ≤ 600 := le_of_lt hage
  simp [hle]

theorem put_then_get_witness :
    ((0 : ℚ) ≤ 1 ∧ (1 : ℚ) ≤ 2 ∧ (2 : ℚ) - 0 < 600) ∧
    (get_user_info "9" 2
      (store_user_info "9" ⟨"9", "B", [], 0, true⟩ 0 1 [])).1 =
      some ⟨"9", "B", [], 0, true⟩ :=
  ⟨⟨by norm_num, by norm_num, by norm_num⟩,
   put_then_get "9" ⟨"9", "B", [], 0, true⟩ 0 1 2 []
     (by norm_num) (by norm_num) (by norm_num)⟩

/-! ## C6, C7, C10 — the prompt interceptor -/

/-- Whatever enhanced prompt the `try` block produces ends in the base
prompt: the interceptor only ever prepends. -/
theorem build_enhanced_suffix {mkS : String → String → String → String → String}
    {mkF : String → String → String} {rr bp : String}
    {uc : List (String × UserInfoData)} {now : ℚ} {p : String}
    (h : build_enhanced mkS mkF rr bp uc now = .ok (some p)) :
    ∃ pre, p = pre ++ bp := by
  unfold build_enhanced at h
  dsimp only at h
  repeat' split at h
  all_goals
    first
      | (simp only [Except.ok.injEq, Option.some.injEq] at h
         exact ⟨_, h.symm⟩)
      | simp at h

/-- The output frame of either wrapper when the original was captured: the
token list is passed through unchanged and the base prompt is a suffix of
the returned prompt. -/
theorem wrapper_core_frame {α : Type}
    (mkS : String → String → String → String → String)
    (mkF : String → String → String) (f : α → String × List Int)
    (arg : α) (rr : String) (now : ℚ) (cache : Cache) :
    (wrapper_core (some f) mkS mkF arg rr now cache).1.2 = (f arg).2 ∧
    ∃ pre, (wrapper_core (some f) mkS mkF arg rr now cache).1.1 =
      pre ++ (f arg).1 := by
  unfold wrapper_core
  dsimp only
  by_cases hb : ((f arg).1 == "") = true
  · rw [if_pos hb]
    exact ⟨rfl, "", by simp⟩
  · rw [if_neg hb]
    rcases henh : build_enhanced mkS mkF rr (f arg).1
        (get_all_user_info now cache).1 now with he | ho
    · exact ⟨rfl, "", by simp⟩
    · cases ho with
      | none => exact ⟨rfl, "", by simp⟩
      | some p => exact ⟨rfl, build_enhanced_suffix henh⟩

/-- C10: for either patched builder, whenever the saved original reference
is non-`None`, the wrapper returns the original's token list unchanged on
every path, and the returned prompt always has the original's base prompt
as a suffix — text is only ever prepended. -/
theorem interceptor_preserves_base {α : Type} (f : α → String × List Int)
    (arg : α) (reply_reason : String) (now : ℚ) (cache : Cache) :
    ((patched_method (some f) arg reply_reason now cache).1.2 = (f arg).2 ∧
     ∃ pre, (patched_method (some f) arg reply_reason now cache).1.1 =
       pre ++ (f arg).1) ∧
    ((patched_method_pri (some f) arg reply_reason now cache).1.2 =
       (f arg).2 ∧
     ∃ pre, (patched_method_pri (some f) arg reply_reason now cache).1.1 =
       pre ++ (f arg).1) :=
  ⟨wrapper_core_frame _ _ f arg reply_reason now cache,
   wrapper_core_frame _ _ f arg reply_reason now cache⟩

/-- If `reply_reason` has no parenthesis the `try` block never enhances:
either the branch was not entered (no quote either) or the extraction
raised `IndexError`. -/
theorem build_enhanced_no_paren
    {mkS : String → String → String → String → String}
    {mkF : String → String → String} {rr bp : String}
    {uc : List (String × UserInfoData)} {now : ℚ}
    (hnp : pyContains '(' rr = false) :
    build_enhanced mkS mkF rr bp uc now = .error () ∨
    build_enhanced mkS mkF rr bp uc now = .ok none := by
  have hext : extract_sender_name rr = none := by
    unfold extract_sender_name
    rw [pySplit1_of_not_contains hnp]
    rfl
  cases hq : pyContains '"' rr with
  | true =>
    left
    simp [build_enhanced, hq, hnp, hext]
  | false =>
    right
    simp [build_enhanced, hq, hnp, hext]

/-- C6: when the original returns a non-empty base prompt and
`reply_reason` contains no `(` — including when it does contain a quote
character, in which case the extraction's `IndexError` is swallowed — the
wrapper returns the base prompt byte-for-byte together with the original's
token list. -/
theorem no_paren_unchanged {α : Type} (f : α → String × List Int)
    (arg : α) (reply_reason : String) (now : ℚ) (cache : Cache)
    (hbp : (f arg).1 ≠ "") (hnp : pyContains '(' reply_reason = false) :
    (patched_method (some f) arg reply_reason now cache).1 = f arg := by
  unfold patched_method wrapper_core
  dsimp only
  rw [if_neg (by simpa using hbp)]
  rcases @build_enhanced_no_paren
      (fun name uid impr att =>
        group_user_prompt name uid impr att ++ impression_prompt)
      group_fail_prompt reply_reason (f arg).1
      (get_all_user_info now cache).1 now hnp with h | h <;>
    rw [h]

theorem no_paren_unchanged_witness :
    ((("BASE", [1]) : String × List Int).1 ≠ "" ∧
      pyContains '(' "she said \"hi\" without parens" = false) ∧
    (patched_method (some (fun _ : Unit => (("BASE", [1]) : String × List Int)))
      () "she said \"hi\" without parens" 5 []).1 = ("BASE", [1]) :=
  ⟨⟨by decide, by decide⟩,
   no_paren_unchanged (fun _ : Unit => ("BASE", [1])) ()
     "she said \"hi\" without parens" 5 [] (by decide) (by decide)⟩

/-- If every cached record whose display name matches the extracted
candidate is older than 600 s, the `try` block never enhances: the expired
records are filtered out of the scan by `get_all_user_info`, so the linear
scan finds no match. -/
theorem build_enhanced_all_expired
    {mkS : String → String → String → String → String}
    {mkF : String → String → String} {rr bp : String} {now : ℚ}
    {cache : Cache}
    (hexp : ∀ x ∈ cache, some x.2.user_data.display_name =
        extract_sender_name rr → now - x.2.timestamp > 600) :
    build_enhanced mkS mkF rr bp (get_all_user_info now cache).1 now =
      .error () ∨
    build_enhanced mkS mkF rr bp (get_all_user_info now cache).1 now =
      .ok none := by
  cases hcond : (pyContains '"' rr || pyContains '(' rr) with
  | false =>
    right
    simp [build_enhanced, hcond]
  | true =>
    cases hext : extract_sender_name rr with
    | none =>
      left
      simp [build_enhanced, hcond, hext]
    | some name =>
      have hfind : find_sender (get_all_user_info now cache).1 name =
          none := by
        unfold find_sender
        rw [Option.map_eq_none', List.find?_eq_none]
        intro x hx
        unfold get_all_user_info at hx
        simp only [List.mem_map, List.mem_filter] at hx
        obtain ⟨q, ⟨hqc, hqle⟩, rfl⟩ := hx
        intro hbeq
        have hdn : q.2.user_data.display_name = name := by simpa using hbeq
        have hmatch : some q.2.user_data.display_name =
            extract_sender_name rr := by rw [hext, hdn]
        have hgt := hexp q hqc hmatch
        rw [decide_eq_true_eq] at hqle
        exact absurd hqle (not_le.mpr hgt)
      right
      simp [build_enhanced, hcond, hext, hfind]

/-- C7: when the only cached records whose display name matches the name
extracted from `reply_reason` are older than 600 s, the wrapper returns the
original's base prompt and token list unchanged — an expired record is
never used for enhancement. -/
theorem expired_match_unchanged {α : Type} (f : α → String × List Int)
    (arg : α) (reply_reason : String) (now : ℚ) (cache : Cache)
    (hexp : ∀ x ∈ cache, some x.2.user_data.display_name =
        extract_sender_name reply_reason → now - x.2.timestamp > 600) :
    (patched_method (some f) arg reply_reason now cache).1 = f arg := by
  unfold patched_method wrapper_core
  dsimp only
  by_cases hb : ((f arg).1 == "") = true
  · rw [if_pos hb]
  · rw [if_neg hb]
    rcases @build_enhanced_all_expired
        (fun name uid impr att =>
          group_user_prompt name uid impr att ++ impression_prompt)
        group_fail_prompt reply_reason (f arg).1 now cache hexp with h | h <;>
      rw [h]

/-- Concrete 1-entry cache whose record ("Alice") was stored at time 0. -/
def sampleAliceCache : Cache := [("1", ⟨⟨"1", "Alice", [], 0, true⟩, 0⟩)]

theorem expired_match_unchanged_witness :
    (∀ x ∈ sampleAliceCache, some x.2.user_data.display_name =
        extract_sender_name "hi (Alice)" → (1000 : ℚ) - x.2.timestamp > 600) ∧
    (patched_method (some (fun _ : Unit => (("BASE", [2]) : String × List Int)))
      () "hi (Alice)" 1000 sampleAliceCache).1 = ("BASE", [2]) := by
  have hexp : ∀ x ∈ sampleAliceCache, some x.2.user_data.display_name =
      extract_sender_name "hi (Alice)" → (1000 : ℚ) - x.2.timestamp > 600 := by
    intro x hx _
    simp only [sampleAliceCache, List.mem_singleton] at hx
    subst hx
    norm_num
  exact ⟨hexp, expired_match_unchanged (fun _ : Unit => ("BASE", [2])) ()
    "hi (Alice)" 1000 sampleAliceCache hexp⟩

/-! ## C8 — unpatch on unload -/

/-- C8: starting from a state where the patch was applied (both original
method references captured and the applied flag set), the unload callback
restores both intercepted host attributes to exactly the saved original
references — so, the attributes being functions, they compute the same
output as the untouched originals on every input — clears the applied flag,
and leaves the global user cache empty. -/
theorem unload_restores {γ δ ε ζ : Type}
    (host : HostMethods (γ → δ) (ε → ζ))
    (g : PatchGlobals (γ → δ) (ε → ζ)) (cache : Cache)
    (og : γ → δ) (op : ε → ζ)
    (hg : g.origGroup = some og) (hp : g.origPri = some op)
    (ha : g.patchApplied = true) :
    (UserInfoPlugin.on_plugin_unload true host g cache).1.groupMethod =
      some og ∧
    (UserInfoPlugin.on_plugin_unload true host g cache).1.priMethod =
      some op ∧
    (∀ fG, (UserInfoPlugin.on_plugin_unload true host g
      cache).1.groupMethod = some fG → ∀ x, fG x = og x) ∧
    (∀ fP, (UserInfoPlugin.on_plugin_unload true host g
      cache).1.priMethod = some fP → ∀ y, fP y = op y) ∧
    (UserInfoPlugin.on_plugin_unload true host g cache).2.1.patchApplied =
      false ∧
    (UserInfoPlugin.on_plugin_unload true host g cache).2.2 = [] := by
  have hres : UserInfoPlugin.on_plugin_unload true host g cache =
      (⟨some og, some op⟩, ⟨some og, some op, false⟩, []) := by
    unfold UserInfoPlugin.on_plugin_unload remove_user_info_patch
    rw [ha, hg, hp]
    rfl
  rw [hres]
  refine ⟨rfl, rfl, ?_, ?_, rfl, rfl⟩
  · intro fG hfG x
    cases Option.some.inj hfG
    rfl
  · intro fP hfP y
    cases Option.some.inj hfP
    rfl

theorem unload_restores_witness :
    ((⟨some (fun n : Nat => n), some (fun n : Nat => n + 1), true⟩ :
       PatchGlobals (Nat → Nat) (Nat → Nat)).patchApplied = true) ∧
    ((UserInfoPlugin.on_plugin_unload true
       (⟨some (fun n : Nat => n + 7), some (fun n : Nat => n + 8)⟩ :
         HostMethods (Nat → Nat) (Nat → Nat))
       ⟨some (fun n : Nat => n), some (fun n : Nat => n + 1), true⟩
       [("z", ⟨⟨"z", "Z", [], 3, true⟩, 4⟩)]).1.groupMethod =
      some (fun n : Nat => n)) ∧
    ((UserInfoPlugin.on_plugin_unload true
       (⟨some (fun n : Nat => n + 7), some (fun n : Nat => n + 8)⟩ :
         HostMethods (Nat → Nat) (Nat → Nat))
       ⟨some (fun n : Nat => n), some (fun n : Nat => n + 1), true⟩
       [("z", ⟨⟨"z", "Z", [], 3, true⟩, 4⟩)]).2.2 = []) := by
  have h := unload_restores
    (⟨some (fun n : Nat => n + 7), some (fun n : Nat => n + 8)⟩ :
      HostMethods (Nat → Nat) (Nat → Nat))
    ⟨some (fun n : Nat => n), some (fun n : Nat => n + 1), true⟩
    [("z", ⟨⟨"z", "Z", [], 3, true⟩, 4⟩)]
    (fun n : Nat => n) (fun n : Nat => n + 1) rfl rfl rfl
  exact ⟨rfl, h.1, h.2.2.2.2.2⟩

/-! ## C1 — the happy-path group enhancement -/

/-- The cached record of the C1 scenario: display name "Alice", a
successful fetch whose payload carries `data.impression = 30` and
`data.attitude = "friendly"`. -/
def aliceRecord (uid : String) (ts : ℚ) : UserInfoData :=
  ⟨uid, "Alice",
   [("success", .boolVal true),
    ("data", .objVal [("impression", .intVal 30),
      ("attitude", .strVal "friendly")]),
    ("status_code", .intVal 200), ("error", .null)], ts, true⟩

/-- C1: with a non-empty base prompt, `reply_reason` = `told Alice (Alice)
hi`, and a cached successful record for "Alice" (impression 30, attitude
"friendly") younger than 600 s, the group wrapper returns the templated
header (naming "Alice", her id, impression 30 and attitude "friendly")
followed by the fixed affinity-tier block — which contains the tier text
for the [25,50) range — followed by the base prompt, with the token list
unchanged. -/
theorem alice_group_enhanced (uid bp : String) (tl : List Int) (ts now : ℚ)
    (huid : uid ≠ "") (hbp : bp ≠ "") (hage : now - ts < 600) :
    (patched_method (some (fun _ : Unit => (bp, tl))) ()
        "told Alice (Alice) hi" now [(uid, ⟨aliceRecord uid ts, ts⟩)]).1 =
      (group_user_prompt "Alice" uid "30" "friendly" ++ impression_prompt
        ++ bp, tl) ∧
    ∃ a b, impression_prompt = a ++ tier_25_50 ++ b := by
  constructor
  · have hga : get_all_user_info now [(uid, ⟨aliceRecord uid ts, ts⟩)] =
        ([(uid, aliceRecord uid ts)],
         [(uid, ⟨aliceRecord uid ts, ts⟩)]) := by
      unfold get_all_user_info
      simp [show now ≤ 600 + ts from by linarith]
    have h1 : (pyContains '"' "told Alice (Alice) hi" ||
        pyContains '(' "told Alice (Alice) hi") = true := by decide
    have h2 : extract_sender_name "told Alice (Alice) hi" =
        some "Alice" := by decide
    have h3 : find_sender [(uid, aliceRecord uid ts)] "Alice" =
        some uid := by
      simp [find_sender, aliceRecord]
    have h4 : (uid == "") = false := beq_eq_false_iff_ne.mpr huid
    have h5 : dictGet? [(uid, aliceRecord uid ts)] uid =
        some (aliceRecord uid ts) := by
      simp [dictGet?]
    have henh : build_enhanced
        (fun name u impr att =>
          group_user_prompt name u impr att ++ impression_prompt)
        group_fail_prompt "told Alice (Alice) hi" bp
        [(uid, aliceRecord uid ts)] now =
        .ok (some ((group_user_prompt "Alice" uid "30" "friendly" ++
          impression_prompt) ++ bp)) := by
      unfold build_enhanced
      simp only [h1, h2, h3, h4, if_true, Bool.false_eq_true, if_false, h5]
      have htos : toString (30 : Int) = "30" := rfl
      simp [aliceRecord, hage, dictGetD, dictGet?, jsonAsDict, pyStr,
        pyRepr, htos]
    unfold patched_method wrapper_core
    dsimp only
    rw [if_neg (by simpa using hbp)]
    rw [hga, henh]
  · refine ⟨"\n好感度等级描述:\n" ++ tier_0_10 ++ "\n" ++ tier_10_25 ++ "\n",
      "\n" ++ tier_50_90 ++ "\n" ++ tier_90_140 ++ "\n" ++ tier_140_200 ++
      "\n" ++ tier_200_270 ++ "\n" ++ tier_270_400 ++ "\n" ++ tier_over_400,
      ?_⟩
    simp only [impression_prompt, String.append_assoc]

theorem alice_group_enhanced_witness :
    ("12345" ≠ "" ∧ "BASE" ≠ "" ∧ (10 : ℚ) - 0 < 600) ∧
    ((patched_method (some (fun _ : Unit => (("BASE", []) : String × List Int)))
        () "told Alice (Alice) hi" 10 [("12345", ⟨aliceRecord "12345" 0, 0⟩)]).1 =
      (group_user_prompt "Alice" "12345" "30" "friendly" ++ impression_prompt
        ++ "BASE", []) ∧
     ∃ a b, impression_prompt = a ++ tier_25_50 ++ b) :=
  ⟨⟨by decide, by decide, by norm_num⟩,
   alice_group_enhanced "12345" "BASE" [] 0 10 (by decide) (by decide)
     (by norm_num)⟩
